import Mathlib

/-!
Shallow embedding of the task-bus VS Code extension (src/dist/extension.js).

The extension keeps module-level mutable state (cached task list, cached
launch-configuration list, the selected task/launch with their derived string
keys, the persisted workspace-state keys, and the status-bar item contents).
We model that state as an explicit `ExtState` record and each extension
function as a pure state transformer.  Host interactions are modelled as
explicit inputs:

* `vscode.tasks.fetchTasks()` is an `Except Unit (List Task)` value
  (`Except.error` models the promise rejecting);
* `vscode.window.showQuickPick` is an `Option Nat` index into the pick list
  (`none` models the user dismissing the picker);
* `vscode.tasks.executeTask` / `vscode.debug.startDebugging` outcomes are a
  `Bool` (`false` models the host call throwing); the calls made are logged
  in a `List HostCall` so that call counts and arguments can be stated;
* `vscode.workspace.getConfiguration` reads are a `LaunchEnv` record
  (per-folder launch configuration lists plus the workspace/global list).

A task definition object is modelled by its JSON serialisation: `none` is
the JS `undefined`, and `JSON.stringify(definition ?? \x7b\x7d)` becomes
`jsonStringifyDef`.  String truthiness of the selection keys (`if
(selectedTaskKey)`) is modelled faithfully: the empty string is falsy.
-/

namespace TaskBus

/-- A workspace folder as used by the code: `uri` stands for
`folder.uri.toString()`, `name` is `Option`al because the code guards it
with `?? 'workspaceFolder'`. -/
structure WorkspaceFolder where
  name : Option String
  uri : String
  deriving DecidableEq, Repr

/-- `vscode.Task.scope`: `undefined`, `TaskScope.Global` (the number 1),
`TaskScope.Workspace` (the number 2), or a workspace folder. -/
inductive TaskScope where
  | undef : TaskScope
  | global : TaskScope
  | workspace : TaskScope
  | folder : WorkspaceFolder → TaskScope
  deriving DecidableEq, Repr

/-- A `vscode.Task` restricted to the fields the extension reads.
`definition` is the JSON serialisation of `task.definition` (`none` = JS
`undefined`).  `isBackground` and `detail` stand for the remaining task
payload that the extension never feeds into its key. -/
structure Task where
  name : String
  source : Option String
  scope : TaskScope
  definition : Option String
  isBackground : Bool
  detail : Option String
  deriving DecidableEq, Repr

/-- A raw `launch` configuration entry.  `name = some s` models a `name`
field that is a string (the only case the code keeps); `type`/`request` are
`Option`al because the code guards them with `?? ''`.  `payload` stands for
the remaining configuration body, which the key never uses. -/
structure DebugConfiguration where
  name : Option String
  type : Option String
  request : Option String
  payload : String
  deriving DecidableEq, Repr

/-- The `LaunchSelection` record of the source: a configuration paired with
the folder it came from (`none` = workspace/global scope). -/
structure LaunchSelection where
  configuration : DebugConfiguration
  folder : Option WorkspaceFolder
  deriving DecidableEq, Repr

/-- The module-level mutable state of extension.js, plus the observable
parts of the four status-bar items. -/
structure ExtState where
  cachedTasks : List Task
  cachedLaunches : List LaunchSelection
  selectedTask : Option Task
  selectedTaskKey : Option String
  selectedLaunch : Option LaunchSelection
  selectedLaunchKey : Option String
  persistedTaskKey : Option String
  persistedLaunchKey : Option String
  taskSelectorText : String
  taskSelectorTooltip : String
  taskRunnerText : String
  taskRunnerTooltip : String
  taskRunnerCommand : String
  launchSelectorText : String
  launchSelectorTooltip : String
  launchRunnerText : String
  launchRunnerTooltip : String
  launchRunnerCommand : String
  taskBusVisible : Bool
  launchBusVisible : Bool
  deriving DecidableEq, Repr

/-- One host-API execution call made by the extension. -/
inductive HostCall where
  | execTask : Task → HostCall
  | startDebug : Option WorkspaceFolder → DebugConfiguration → HostCall
  deriving DecidableEq, Repr

/-- The configuration environment read by `refreshLaunchConfigurations`:
each workspace folder paired with its `launch.configurations` list, and the
workspace/global `launch.configurations` list. -/
structure LaunchEnv where
  folders : List (WorkspaceFolder × List DebugConfiguration)
  workspaceConfigs : List DebugConfiguration
  deriving DecidableEq, Repr

/-- The host environment seen by `activate` and the event listeners. -/
structure HostEnv where
  fetchResult : Except Unit (List Task)
  launchEnv : LaunchEnv
  showTaskBus : Bool
  showLaunchBus : Bool
  deriving Repr

/-- JS truthiness of an optional string: `undefined` and `''` are falsy. -/
def strTruthy : Option String → Bool
  | none => false
  | some s => s != ""

/-- `JSON.stringify(task.definition ?? \x7b\x7d)`. -/
def jsonStringifyDef : Option String → String
  | some d => d
  | none => "\x7b\x7d"

/-- `isWorkspaceTask`: falsy scope is rejected; a numeric scope is kept iff
it is not `TaskScope.Global`; a folder scope is kept. -/
def isWorkspaceTask (t : Task) : Bool :=
  match t.scope with
  | TaskScope.undef => false
  | TaskScope.global => false
  | TaskScope.workspace => true
  | TaskScope.folder _ => true

/-- `getScopeId`. -/
def getScopeId (t : Task) : String :=
  match t.scope with
  | TaskScope.undef => "unknown"
  | TaskScope.global => "global"
  | TaskScope.workspace => "workspace"
  | TaskScope.folder f => f.name.getD "workspaceFolder"

/-- `getTaskKey`. -/
def getTaskKey (t : Task) : String :=
  getScopeId t ++ "::" ++ t.source.getD "" ++ "::" ++ t.name ++ "::"
    ++ jsonStringifyDef t.definition

/-- `getLaunchKey`. -/
def getLaunchKey (l : LaunchSelection) : String :=
  (match l.folder with
   | some f => f.uri
   | none => "workspace")
    ++ "::" ++ l.configuration.name.getD "" ++ "::"
    ++ l.configuration.type.getD "" ++ "::" ++ l.configuration.request.getD ""

/-- `updateTaskStatusBar`.  The dist build uses the `$(tools)` icon for the
runner item in both branches. -/
def updateTaskStatusBar (s : ExtState) : ExtState :=
  match s.selectedTask with
  | some t =>
    { s with
      taskSelectorText := "$(list-selection) " ++ t.name
      taskSelectorTooltip :=
        "Selected task: " ++ t.name ++ "\nClick to choose a different task"
      taskRunnerTooltip := "Run " ++ t.name
      taskRunnerText := "$(tools)"
      taskRunnerCommand := "task-bus.executeTask" }
  | none =>
    { s with
      taskSelectorText := "$(list-selection) Select Task"
      taskSelectorTooltip := "No task selected. Click to choose one."
      taskRunnerTooltip := "Select a task to run."
      taskRunnerText := "$(tools)" }

/-- `updateLaunchStatusBar`.  A selected launch with a non-string `name`
would be interpolated as the text `undefined`, matching JS templates. -/
def updateLaunchStatusBar (s : ExtState) : ExtState :=
  match s.selectedLaunch with
  | some l =>
    { s with
      launchSelectorText :=
        "$(debug-alt) " ++ l.configuration.name.getD "undefined"
      launchSelectorTooltip :=
        "Selected launch configuration: " ++ l.configuration.name.getD "undefined"
          ++ "\nClick to choose a different configuration"
      launchRunnerTooltip := "Start " ++ l.configuration.name.getD "undefined"
      launchRunnerText := "$(rocket)"
      launchRunnerCommand := "task-bus.executeLaunch" }
  | none =>
    { s with
      launchSelectorText := "$(debug-alt) Select Launch"
      launchSelectorTooltip := "No launch configuration selected. Click to choose one."
      launchRunnerTooltip := "Select a launch configuration to run."
      launchRunnerText := "$(rocket)" }

/-- `refreshTasks`: fetch (an error empties the cache), filter to workspace
tasks, revalidate a truthy selection key against the new cache, update the
status bar. -/
def refreshTasks (fetched : Except Unit (List Task)) (s : ExtState) : ExtState :=
  let cached : List Task :=
    match fetched with
    | Except.ok allTasks => allTasks.filter isWorkspaceTask
    | Except.error _ => []
  let s1 := { s with cachedTasks := cached }
  let s2 :=
    match s1.selectedTaskKey with
    | some k =>
      if k != "" then
        match cached.find? (fun t => getTaskKey t == k) with
        | some t => { s1 with selectedTask := some t }
        | none =>
          { s1 with selectedTask := none, selectedTaskKey := none,
                    persistedTaskKey := none }
      else s1
    | none => s1
  updateTaskStatusBar s2

/-- `selectTask`: refresh, bail out on an empty cache, show the picker
(`pick` is the chosen index, `none` = dismissed), store the selection and
its key in memory and workspace state, update the status bar. -/
def selectTask (fetched : Except Unit (List Task)) (pick : Option Nat)
    (s : ExtState) : ExtState :=
  let s1 := refreshTasks fetched s
  if s1.cachedTasks.isEmpty then s1
  else
    match pick.bind (fun i => s1.cachedTasks[i]?) with
    | none => s1
    | some t =>
      updateTaskStatusBar
        { s1 with selectedTask := some t, selectedTaskKey := some (getTaskKey t),
                  persistedTaskKey := some (getTaskKey t) }

/-- The selection phase of `executeTask`: refresh, then run `selectTask`
(with its own fresh fetch) when nothing is selected. -/
def executeTaskPhase (fetched fetched2 : Except Unit (List Task))
    (pick : Option Nat) (s : ExtState) : ExtState :=
  let s1 := refreshTasks fetched s
  if s1.selectedTask.isSome then s1 else selectTask fetched2 pick s1

/-- `executeTask`: after the selection phase, re-resolve the selected task
against the cache by key (falling back to the stored task) and hand it to
`vscode.tasks.executeTask`; on a throw (`execOk = false`) log, clear the
selection and persisted key, and update the status bar. -/
def executeTask (fetched fetched2 : Except Unit (List Task)) (pick : Option Nat)
    (execOk : Bool) (s : ExtState) : ExtState × List HostCall :=
  let s2 := executeTaskPhase fetched fetched2 pick s
  match s2.selectedTask with
  | none => (s2, [])
  | some sel =>
    let key := getTaskKey sel
    let freshTask := (s2.cachedTasks.find? (fun t => getTaskKey t == key)).getD sel
    if execOk then (s2, [HostCall.execTask freshTask])
    else
      (updateTaskStatusBar
         { s2 with selectedTask := none, selectedTaskKey := none,
                   persistedTaskKey := none },
       [HostCall.execTask freshTask])

/-- The inner loop of `refreshLaunchConfigurations` over one configuration
list: push every entry whose `name` is a string, paired with `folder`. -/
def collectConfigs (folder : Option WorkspaceFolder) :
    List DebugConfiguration → List LaunchSelection
  | [] => []
  | c :: rest =>
    if c.name.isSome then ⟨c, folder⟩ :: collectConfigs folder rest
    else collectConfigs folder rest

/-- The outer loop of `refreshLaunchConfigurations` over the workspace
folders. -/
def collectFolderLaunches :
    List (WorkspaceFolder × List DebugConfiguration) → List LaunchSelection
  | [] => []
  | fp :: rest => collectConfigs (some fp.1) fp.2 ++ collectFolderLaunches rest

/-- `refreshLaunchConfigurations`: gather folder-scoped entries then
workspace/global entries, cache them, revalidate a truthy selection key,
update the status bar. -/
def refreshLaunchConfigurations (env : LaunchEnv) (s : ExtState) : ExtState :=
  let launches :=
    collectFolderLaunches env.folders ++ collectConfigs none env.workspaceConfigs
  let s1 := { s with cachedLaunches := launches }
  let s2 :=
    match s1.selectedLaunchKey with
    | some k =>
      if k != "" then
        match launches.find? (fun l => getLaunchKey l == k) with
        | some l => { s1 with selectedLaunch := some l }
        | none =>
          { s1 with selectedLaunch := none, selectedLaunchKey := none,
                    persistedLaunchKey := none }
      else s1
    | none => s1
  updateLaunchStatusBar s2

/-- `selectLaunch`. -/
def selectLaunch (env : LaunchEnv) (pick : Option Nat) (s : ExtState) : ExtState :=
  let s1 := refreshLaunchConfigurations env s
  if s1.cachedLaunches.isEmpty then s1
  else
    match pick.bind (fun i => s1.cachedLaunches[i]?) with
    | none => s1
    | some l =>
      updateLaunchStatusBar
        { s1 with selectedLaunch := some l,
                  selectedLaunchKey := some (getLaunchKey l),
                  persistedLaunchKey := some (getLaunchKey l) }

/-- The selection phase of `executeLaunch`. -/
def executeLaunchPhase (env env2 : LaunchEnv) (pick : Option Nat)
    (s : ExtState) : ExtState :=
  let s1 := refreshLaunchConfigurations env s
  if s1.selectedLaunch.isSome then s1 else selectLaunch env2 pick s1

/-- `executeLaunch`. -/
def executeLaunch (env env2 : LaunchEnv) (pick : Option Nat) (startOk : Bool)
    (s : ExtState) : ExtState × List HostCall :=
  let s2 := executeLaunchPhase env env2 pick s
  match s2.selectedLaunch with
  | none => (s2, [])
  | some sel =>
    let key := getLaunchKey sel
    let freshLaunch :=
      (s2.cachedLaunches.find? (fun l => getLaunchKey l == key)).getD sel
    if startOk then
      (s2, [HostCall.startDebug freshLaunch.folder freshLaunch.configuration])
    else
      (updateLaunchStatusBar
         { s2 with selectedLaunch := none, selectedLaunchKey := none,
                   persistedLaunchKey := none },
       [HostCall.startDebug freshLaunch.folder freshLaunch.configuration])

/-- `applyVisibilitySettings`: show or hide each status-bar pair. -/
def applyVisibilitySettings (showTaskBus showLaunchBus : Bool)
    (s : ExtState) : ExtState :=
  { s with taskBusVisible := showTaskBus, launchBusVisible := showLaunchBus }

/-- The module state right after the status-bar items are created in
`activate`, before the persisted keys are read. -/
def initState : ExtState where
  cachedTasks := []
  cachedLaunches := []
  selectedTask := none
  selectedTaskKey := none
  selectedLaunch := none
  selectedLaunchKey := none
  persistedTaskKey := none
  persistedLaunchKey := none
  taskSelectorText := ""
  taskSelectorTooltip := "Select task defined in tasks.json"
  taskRunnerText := ""
  taskRunnerTooltip := ""
  taskRunnerCommand := "task-bus.executeTask"
  launchSelectorText := ""
  launchSelectorTooltip := "Select launch configuration defined in launch.json"
  launchRunnerText := ""
  launchRunnerTooltip := ""
  launchRunnerCommand := "task-bus.executeLaunch"
  taskBusVisible := false
  launchBusVisible := false

/-- `activate`: read the persisted keys into memory (`pT`, `pL` are the
workspace-state contents), refresh both caches and apply visibility. -/
def activate (pT pL : Option String) (env : HostEnv) : ExtState :=
  let s0 := { initState with persistedTaskKey := pT, persistedLaunchKey := pL }
  let s1 := { s0 with selectedTaskKey := pT, selectedLaunchKey := pL }
  let s2 := refreshTasks env.fetchResult s1
  let s3 := refreshLaunchConfigurations env.launchEnv s2
  applyVisibilitySettings env.showTaskBus env.showLaunchBus s3

/-- The events the subscriptions of `activate` can receive.  For a
configuration change, the two flags are
`event.affectsConfiguration('task-bus.showTaskBus')` and
`event.affectsConfiguration('task-bus.showLaunchBus')`. -/
inductive ExtEvent where
  | tasksJsonChange : ExtEvent
  | tasksJsonCreate : ExtEvent
  | tasksJsonDelete : ExtEvent
  | workspaceFoldersChange : ExtEvent
  | launchJsonChange : ExtEvent
  | launchJsonCreate : ExtEvent
  | launchJsonDelete : ExtEvent
  | configurationChange : Bool → Bool → ExtEvent
  deriving DecidableEq, Repr

/-- The event dispatch wired up in `activate`: the tasks.json watcher and
the workspace-folder listener call `refreshTasks`, the launch.json watcher
calls `refreshLaunchConfigurations`, and the configuration-change listener
calls `applyVisibilitySettings` when one of the two task-bus visibility
settings is affected. -/
def handleEvent (env : HostEnv) : ExtEvent → ExtState → ExtState
  | ExtEvent.tasksJsonChange, s => refreshTasks env.fetchResult s
  | ExtEvent.tasksJsonCreate, s => refreshTasks env.fetchResult s
  | ExtEvent.tasksJsonDelete, s => refreshTasks env.fetchResult s
  | ExtEvent.workspaceFoldersChange, s => refreshTasks env.fetchResult s
  | ExtEvent.launchJsonChange, s => refreshLaunchConfigurations env.launchEnv s
  | ExtEvent.launchJsonCreate, s => refreshLaunchConfigurations env.launchEnv s
  | ExtEvent.launchJsonDelete, s => refreshLaunchConfigurations env.launchEnv s
  | ExtEvent.configurationChange a b, s =>
    if a || b then applyVisibilitySettings env.showTaskBus env.showLaunchBus s
    else s

/-- The task status-bar pair reflects the current task selection: with a
selection the selector shows the task name, without one it shows the
placeholder, and the runner shows its icon. -/
def taskBarConsistent (s : ExtState) : Bool :=
  match s.selectedTask with
  | some t =>
    s.taskSelectorText == "$(list-selection) " ++ t.name
      && s.taskRunnerText == "$(tools)"
  | none =>
    s.taskSelectorText == "$(list-selection) Select Task"
      && s.taskRunnerText == "$(tools)"

/-- The launch status-bar pair reflects the current launch selection. -/
def launchBarConsistent (s : ExtState) : Bool :=
  match s.selectedLaunch with
  | some l =>
    s.launchSelectorText == "$(debug-alt) " ++ l.configuration.name.getD "undefined"
      && s.launchRunnerText == "$(rocket)"
  | none =>
    s.launchSelectorText == "$(debug-alt) Select Launch"
      && s.launchRunnerText == "$(rocket)"

/-- Task-selection bookkeeping invariant: the selected task and its key are
defined together, the key is the derived key of the selected task, and the
workspace-state copy agrees with the in-memory key. -/
def taskStateConsistent (s : ExtState) : Bool :=
  match s.selectedTask, s.selectedTaskKey with
  | none, none => s.persistedTaskKey == none
  | some t, some k => k == getTaskKey t && s.persistedTaskKey == some k
  | _, _ => false

/-- Launch-selection bookkeeping invariant, mirror of `taskStateConsistent`. -/
def launchStateConsistent (s : ExtState) : Bool :=
  match s.selectedLaunch, s.selectedLaunchKey with
  | none, none => s.persistedLaunchKey == none
  | some l, some k => k == getLaunchKey l && s.persistedLaunchKey == some k
  | _, _ => false

@[simp] lemma updateTaskStatusBar_selectedTask (s : ExtState) :
    (updateTaskStatusBar s).selectedTask = s.selectedTask := by
  cases h : s.selectedTask <;> simp [updateTaskStatusBar, h]

@[simp] lemma updateTaskStatusBar_selectedTaskKey (s : ExtState) :
    (updateTaskStatusBar s).selectedTaskKey = s.selectedTaskKey := by
  cases h : s.selectedTask <;> simp [updateTaskStatusBar, h]

@[simp] lemma updateTaskStatusBar_persistedTaskKey (s : ExtState) :
    (updateTaskStatusBar s).persistedTaskKey = s.persistedTaskKey := by
  cases h : s.selectedTask <;> simp [updateTaskStatusBar, h]

@[simp] lemma updateTaskStatusBar_cachedTasks (s : ExtState) :
    (updateTaskStatusBar s).cachedTasks = s.cachedTasks := by
  cases h : s.selectedTask <;> simp [updateTaskStatusBar, h]

@[simp] lemma updateTaskStatusBar_cachedLaunches (s : ExtState) :
    (updateTaskStatusBar s).cachedLaunches = s.cachedLaunches := by
  cases h : s.selectedTask <;> simp [updateTaskStatusBar, h]

@[simp] lemma updateTaskStatusBar_selectedLaunch (s : ExtState) :
    (updateTaskStatusBar s).selectedLaunch = s.selectedLaunch := by
  cases h : s.selectedTask <;> simp [updateTaskStatusBar, h]

@[simp] lemma updateTaskStatusBar_selectedLaunchKey (s : ExtState) :
    (updateTaskStatusBar s).selectedLaunchKey = s.selectedLaunchKey := by
  cases h : s.selectedTask <;> simp [updateTaskStatusBar, h]

@[simp] lemma updateTaskStatusBar_persistedLaunchKey (s : ExtState) :
    (updateTaskStatusBar s).persistedLaunchKey = s.persistedLaunchKey := by
  cases h : s.selectedTask <;> simp [updateTaskStatusBar, h]

@[simp] lemma updateTaskStatusBar_launchSelectorText (s : ExtState) :
    (updateTaskStatusBar s).launchSelectorText = s.launchSelectorText := by
  cases h : s.selectedTask <;> simp [updateTaskStatusBar, h]

@[simp] lemma updateTaskStatusBar_launchRunnerText (s : ExtState) :
    (updateTaskStatusBar s).launchRunnerText = s.launchRunnerText := by
  cases h : s.selectedTask <;> simp [updateTaskStatusBar, h]

@[simp] lemma updateLaunchStatusBar_selectedLaunch (s : ExtState) :
    (updateLaunchStatusBar s).selectedLaunch = s.selectedLaunch := by
  cases h : s.selectedLaunch <;> simp [updateLaunchStatusBar, h]

@[simp] lemma updateLaunchStatusBar_selectedLaunchKey (s : ExtState) :
    (updateLaunchStatusBar s).selectedLaunchKey = s.selectedLaunchKey := by
  cases h : s.selectedLaunch <;> simp [updateLaunchStatusBar, h]

@[simp] lemma updateLaunchStatusBar_persistedLaunchKey (s : ExtState) :
    (updateLaunchStatusBar s).persistedLaunchKey = s.persistedLaunchKey := by
  cases h : s.selectedLaunch <;> simp [updateLaunchStatusBar, h]

@[simp] lemma updateLaunchStatusBar_cachedLaunches (s : ExtState) :
    (updateLaunchStatusBar s).cachedLaunches = s.cachedLaunches := by
  cases h : s.selectedLaunch <;> simp [updateLaunchStatusBar, h]

@[simp] lemma updateLaunchStatusBar_cachedTasks (s : ExtState) :
    (updateLaunchStatusBar s).cachedTasks = s.cachedTasks := by
  cases h : s.selectedLaunch <;> simp [updateLaunchStatusBar, h]

@[simp] lemma updateLaunchStatusBar_selectedTask (s : ExtState) :
    (updateLaunchStatusBar s).selectedTask = s.selectedTask := by
  cases h : s.selectedLaunch <;> simp [updateLaunchStatusBar, h]

@[simp] lemma updateLaunchStatusBar_selectedTaskKey (s : ExtState) :
    (updateLaunchStatusBar s).selectedTaskKey = s.selectedTaskKey := by
  cases h : s.selectedLaunch <;> simp [updateLaunchStatusBar, h]

@[simp] lemma updateLaunchStatusBar_persistedTaskKey (s : ExtState) :
    (updateLaunchStatusBar s).persistedTaskKey = s.persistedTaskKey := by
  cases h : s.selectedLaunch <;> simp [updateLaunchStatusBar, h]

@[simp] lemma updateLaunchStatusBar_taskSelectorText (s : ExtState) :
    (updateLaunchStatusBar s).taskSelectorText = s.taskSelectorText := by
  cases h : s.selectedLaunch <;> simp [updateLaunchStatusBar, h]

@[simp] lemma updateLaunchStatusBar_taskRunnerText (s : ExtState) :
    (updateLaunchStatusBar s).taskRunnerText = s.taskRunnerText := by
  cases h : s.selectedLaunch <;> simp [updateLaunchStatusBar, h]

lemma taskBarConsistent_update (s : ExtState) :
    taskBarConsistent (updateTaskStatusBar s) = true := by
  cases h : s.selectedTask <;>
    simp [taskBarConsistent, updateTaskStatusBar, h]

lemma launchBarConsistent_update (s : ExtState) :
    launchBarConsistent (updateLaunchStatusBar s) = true := by
  cases h : s.selectedLaunch <;>
    simp [launchBarConsistent, updateLaunchStatusBar, h]

lemma getTaskKey_ne_empty (t : Task) : getTaskKey t ≠ "" := by
  intro h
  have hl := congrArg String.length h
  simp +decide [getTaskKey, String.length_append] at hl

lemma getLaunchKey_ne_empty (l : LaunchSelection) : getLaunchKey l ≠ "" := by
  intro h
  have hl := congrArg String.length h
  simp +decide [getLaunchKey, String.length_append] at hl

lemma refreshTasks_cachedTasks (f : Except Unit (List Task)) (s : ExtState) :
    (refreshTasks f s).cachedTasks =
      match f with
      | Except.ok ts => ts.filter isWorkspaceTask
      | Except.error _ => [] := by
  cases f <;>
  · simp only [refreshTasks, updateTaskStatusBar_cachedTasks]
    split <;> (try split) <;> (try split) <;> rfl

lemma collectConfigs_eq (folder : Option WorkspaceFolder)
    (cs : List DebugConfiguration) :
    collectConfigs folder cs =
      (cs.filter (fun c => c.name.isSome)).map
        (fun c => { configuration := c, folder := folder }) := by
  induction cs with
  | nil => rfl
  | cons c rest ih =>
    by_cases h : c.name.isSome <;>
      simp [collectConfigs, List.filter_cons, h, ih]

lemma collectFolderLaunches_eq
    (fs : List (WorkspaceFolder × List DebugConfiguration)) :
    collectFolderLaunches fs =
      fs.flatMap (fun fp =>
        (fp.2.filter (fun c => c.name.isSome)).map
          (fun c => { configuration := c, folder := some fp.1 })) := by
  induction fs with
  | nil => rfl
  | cons fp rest ih =>
    simp [collectFolderLaunches, collectConfigs_eq, ih]

lemma refreshLaunchConfigurations_cachedLaunches (env : LaunchEnv)
    (s : ExtState) :
    (refreshLaunchConfigurations env s).cachedLaunches =
      collectFolderLaunches env.folders
        ++ collectConfigs none env.workspaceConfigs := by
  simp only [refreshLaunchConfigurations, updateLaunchStatusBar_cachedLaunches]
  split <;> (try split) <;> (try split) <;> rfl

/-- Claim C2: `refreshTasks` caches exactly the workspace-scoped tasks among
those returned by the host fetch, preserving order: a fetched task is kept
iff its scope is defined and is not `TaskScope.Global` (folder- and
Workspace-scoped tasks are kept; scope-less and Global tasks are dropped). -/
theorem C2_refreshTasks_filters_workspace_tasks
    (ts : List Task) (s : ExtState) :
    (refreshTasks (Except.ok ts) s).cachedTasks = ts.filter isWorkspaceTask
      ∧ (∀ t : Task, isWorkspaceTask t = true
          ↔ (t.scope ≠ TaskScope.undef ∧ t.scope ≠ TaskScope.global))
      ∧ (∀ t : Task, ∀ f : WorkspaceFolder,
          isWorkspaceTask { t with scope := TaskScope.folder f } = true
            ∧ isWorkspaceTask { t with scope := TaskScope.workspace } = true
            ∧ isWorkspaceTask { t with scope := TaskScope.undef } = false
            ∧ isWorkspaceTask { t with scope := TaskScope.global } = false) := by
  refine ⟨refreshTasks_cachedTasks (Except.ok ts) s, ?_, ?_⟩
  · intro t
    cases h : t.scope <;> simp [isWorkspaceTask, h]
  · intro t f
    simp [isWorkspaceTask]

/-- Claim C4: the derived identifiers are deterministic string keys:
`getTaskKey` depends only on the scope, source, name and definition of a
task, and `getLaunchKey` depends only on the folder URI (or folder-lessness)
and the configuration's name, type and request. -/
theorem C4_keys_deterministic (t1 t2 : Task) (l1 l2 : LaunchSelection)
    (h1 : t1.scope = t2.scope) (h2 : t1.source = t2.source)
    (h3 : t1.name = t2.name) (h4 : t1.definition = t2.definition)
    (g1 : l1.folder.map WorkspaceFolder.uri = l2.folder.map WorkspaceFolder.uri)
    (g2 : l1.configuration.name = l2.configuration.name)
    (g3 : l1.configuration.type = l2.configuration.type)
    (g4 : l1.configuration.request = l2.configuration.request) :
    getTaskKey t1 = getTaskKey t2 ∧ getLaunchKey l1 = getLaunchKey l2 := by
  constructor
  · unfold getTaskKey getScopeId
    rw [h1, h2, h3, h4]
  · unfold getLaunchKey
    rw [g2, g3, g4]
    cases hf1 : l1.folder <;> cases hf2 : l2.folder <;>
      simp [hf1, hf2] at g1 ⊢
    rw [g1]

/-- Witness for C4 at concrete inputs: the tasks differ in `isBackground`
and `detail`, the launches differ in folder name and payload, yet the keys
agree. -/
theorem C4_keys_deterministic_witness :
    getTaskKey
        { name := "build", source := some "npm", scope := TaskScope.workspace,
          definition := some "x", isBackground := false, detail := none }
      = getTaskKey
        { name := "build", source := some "npm", scope := TaskScope.workspace,
          definition := some "x", isBackground := true, detail := some "d" }
    ∧ getLaunchKey
        { configuration := { name := some "run", type := some "node",
                             request := some "launch", payload := "a" },
          folder := some { name := some "f1", uri := "file:///w" } }
      = getLaunchKey
        { configuration := { name := some "run", type := some "node",
                             request := some "launch", payload := "b" },
          folder := some { name := some "f2", uri := "file:///w" } } :=
  C4_keys_deterministic _ _ _ _ rfl rfl rfl rfl rfl rfl rfl rfl

/-- Claim C5: `refreshLaunchConfigurations` caches, in order, for each
workspace folder the folder's configured launch entries, then the
workspace/global entries, keeping exactly the entries whose `name` field is
a string; folder-scoped entries precede workspace-scoped entries. -/
theorem C5_refreshLaunchConfigurations_cache (env : LaunchEnv) (s : ExtState) :
    (refreshLaunchConfigurations env s).cachedLaunches =
      (env.folders.flatMap (fun fp =>
        (fp.2.filter (fun c => c.name.isSome)).map
          (fun c => { configuration := c, folder := some fp.1 })))
      ++ ((env.workspaceConfigs.filter (fun c => c.name.isSome)).map
          (fun c => { configuration := c, folder := none })) := by
  rw [refreshLaunchConfigurations_cachedLaunches, collectFolderLaunches_eq,
    collectConfigs_eq]

lemma refreshTasks_revalidate (f : Except Unit (List Task)) (s : ExtState)
    (k : String) (hk : k ≠ "") (hsel : s.selectedTaskKey = some k) :
    (refreshTasks f s).selectedTask
        = (refreshTasks f s).cachedTasks.find? (fun t => getTaskKey t == k)
      ∧ ((refreshTasks f s).cachedTasks.find? (fun t => getTaskKey t == k) = none
          → (refreshTasks f s).selectedTask = none
            ∧ (refreshTasks f s).selectedTaskKey = none
            ∧ (refreshTasks f s).persistedTaskKey = none) := by
  have hbne : (k != "") = true := by simp [bne_iff_ne, hk]
  simp only [refreshTasks, updateTaskStatusBar_selectedTask,
    updateTaskStatusBar_selectedTaskKey, updateTaskStatusBar_persistedTaskKey,
    updateTaskStatusBar_cachedTasks]
  simp only [hsel, hbne, if_true]
  cases hfind :
      (match f with
        | Except.ok allTasks => allTasks.filter isWorkspaceTask
        | Except.error _ => []).find? (fun t => getTaskKey t == k) <;>
    simp [hfind]

lemma refreshLaunch_revalidate (env : LaunchEnv) (s : ExtState)
    (k : String) (hk : k ≠ "") (hsel : s.selectedLaunchKey = some k) :
    (refreshLaunchConfigurations env s).selectedLaunch
        = (refreshLaunchConfigurations env s).cachedLaunches.find?
            (fun l => getLaunchKey l == k)
      ∧ ((refreshLaunchConfigurations env s).cachedLaunches.find?
            (fun l => getLaunchKey l == k) = none
          → (refreshLaunchConfigurations env s).selectedLaunch = none
            ∧ (refreshLaunchConfigurations env s).selectedLaunchKey = none
            ∧ (refreshLaunchConfigurations env s).persistedLaunchKey = none) := by
  have hbne : (k != "") = true := by simp [bne_iff_ne, hk]
  simp only [refreshLaunchConfigurations, updateLaunchStatusBar_selectedLaunch,
    updateLaunchStatusBar_selectedLaunchKey,
    updateLaunchStatusBar_persistedLaunchKey,
    updateLaunchStatusBar_cachedLaunches]
  simp only [hsel, hbne, if_true]
  cases hfind :
      (collectFolderLaunches env.folders
        ++ collectConfigs none env.workspaceConfigs).find?
          (fun l => getLaunchKey l == k) <;>
    simp [hfind]

/-- Claim C1: on every refresh, a present (truthy, hence non-empty)
selection key is revalidated: the in-memory selection becomes the first
cached candidate whose derived key equals the key, and when no cached
candidate matches, the in-memory selection and the key (in memory and in
workspace state) are all cleared. -/
theorem C1_refresh_revalidates_selection (f : Except Unit (List Task))
    (env : LaunchEnv) (s : ExtState) (k k2 : String)
    (hk : k ≠ "") (hk2 : k2 ≠ "") :
    (s.selectedTaskKey = some k →
      (refreshTasks f s).selectedTask
          = (refreshTasks f s).cachedTasks.find? (fun t => getTaskKey t == k)
        ∧ ((refreshTasks f s).cachedTasks.find? (fun t => getTaskKey t == k)
              = none
            → (refreshTasks f s).selectedTask = none
              ∧ (refreshTasks f s).selectedTaskKey = none
              ∧ (refreshTasks f s).persistedTaskKey = none))
    ∧ (s.selectedLaunchKey = some k2 →
      (refreshLaunchConfigurations env s).selectedLaunch
          = (refreshLaunchConfigurations env s).cachedLaunches.find?
              (fun l => getLaunchKey l == k2)
        ∧ ((refreshLaunchConfigurations env s).cachedLaunches.find?
              (fun l => getLaunchKey l == k2) = none
            → (refreshLaunchConfigurations env s).selectedLaunch = none
              ∧ (refreshLaunchConfigurations env s).selectedLaunchKey = none
              ∧ (refreshLaunchConfigurations env s).persistedLaunchKey = none)) :=
  ⟨fun hsel => refreshTasks_revalidate f s k hk hsel,
   fun hsel => refreshLaunch_revalidate env s k2 hk2 hsel⟩

/-- Witness for C1: a stale task key and a stale launch key are both cleared
when the refreshed caches contain no match. -/
theorem C1_refresh_revalidates_selection_witness :
    (refreshTasks (Except.ok [])
        { initState with selectedTaskKey := some "k1",
                         selectedLaunchKey := some "k2" }).selectedTaskKey = none
    ∧ (refreshLaunchConfigurations { folders := [], workspaceConfigs := [] }
        { initState with selectedTaskKey := some "k1",
                         selectedLaunchKey := some "k2" }).selectedLaunchKey
        = none := by
  have h := C1_refresh_revalidates_selection (Except.ok [])
    { folders := [], workspaceConfigs := [] }
    { initState with selectedTaskKey := some "k1",
                     selectedLaunchKey := some "k2" }
    "k1" "k2" (by decide) (by decide)
  exact ⟨((h.1 rfl).2 (by decide)).2.1, ((h.2 rfl).2 (by decide)).2.1⟩

/-- Counterexample to C6: with a workspace task and a named launch entry
available from the host, a configuration-change event (affecting both
task-bus settings) leaves both caches unchanged, while a refresh would
populate each of them — so a configuration-change event does not trigger
re-enumeration of either cache. -/
theorem C6_counterexample :
    ((handleEvent
        { fetchResult := Except.ok
            [{ name := "build", source := some "npm",
               scope := TaskScope.workspace, definition := none,
               isBackground := false, detail := none }],
          launchEnv :=
            { folders := [],
              workspaceConfigs :=
                [{ name := some "run", type := some "node",
                   request := some "launch", payload := "" }] },
          showTaskBus := true, showLaunchBus := true }
        (ExtEvent.configurationChange true true) initState).cachedTasks
      ≠ (refreshTasks (Except.ok
            [{ name := "build", source := some "npm",
               scope := TaskScope.workspace, definition := none,
               isBackground := false, detail := none }]) initState).cachedTasks)
    ∧ ((handleEvent
        { fetchResult := Except.ok
            [{ name := "build", source := some "npm",
               scope := TaskScope.workspace, definition := none,
               isBackground := false, detail := none }],
          launchEnv :=
            { folders := [],
              workspaceConfigs :=
                [{ name := some "run", type := some "node",
                   request := some "launch", payload := "" }] },
          showTaskBus := true, showLaunchBus := true }
        (ExtEvent.configurationChange true true) initState).cachedLaunches
      ≠ (refreshLaunchConfigurations
          { folders := [],
            workspaceConfigs :=
              [{ name := some "run", type := some "node",
                 request := some "launch", payload := "" }] }
          initState).cachedLaunches) := by
  constructor <;> decide

/-- Claim C6 (amended): only the file-system watchers and the
workspace-folder listener trigger re-enumeration.  The configuration-change
listener never refreshes either cache: it leaves both caches unchanged, and
it merely re-applies the status-bar visibility settings when one of
`task-bus.showTaskBus` / `task-bus.showLaunchBus` is affected, doing nothing
at all otherwise. -/
theorem C6_configuration_change_listener (env : HostEnv) (a b : Bool)
    (s : ExtState) :
    (handleEvent env (ExtEvent.configurationChange a b) s).cachedTasks
        = s.cachedTasks
    ∧ (handleEvent env (ExtEvent.configurationChange a b) s).cachedLaunches
        = s.cachedLaunches
    ∧ ((a || b) = true →
        handleEvent env (ExtEvent.configurationChange a b) s
          = applyVisibilitySettings env.showTaskBus env.showLaunchBus s)
    ∧ ((a || b) = false →
        handleEvent env (ExtEvent.configurationChange a b) s = s)
    ∧ handleEvent env ExtEvent.tasksJsonChange s = refreshTasks env.fetchResult s
    ∧ handleEvent env ExtEvent.tasksJsonCreate s = refreshTasks env.fetchResult s
    ∧ handleEvent env ExtEvent.tasksJsonDelete s = refreshTasks env.fetchResult s
    ∧ handleEvent env ExtEvent.workspaceFoldersChange s
        = refreshTasks env.fetchResult s
    ∧ handleEvent env ExtEvent.launchJsonChange s
        = refreshLaunchConfigurations env.launchEnv s
    ∧ handleEvent env ExtEvent.launchJsonCreate s
        = refreshLaunchConfigurations env.launchEnv s
    ∧ handleEvent env ExtEvent.launchJsonDelete s
        = refreshLaunchConfigurations env.launchEnv s := by
  cases a <;> cases b <;>
    simp [handleEvent, applyVisibilitySettings]

/-- Witness for C6 (amended) at a concrete input: a configuration-change
event affecting `task-bus.showTaskBus` only re-applies visibility. -/
theorem C6_configuration_change_listener_witness :
    handleEvent
        { fetchResult := Except.ok [], launchEnv := { folders := [], workspaceConfigs := [] },
          showTaskBus := false, showLaunchBus := true }
        (ExtEvent.configurationChange true false) initState
      = applyVisibilitySettings false true initState :=
  (C6_configuration_change_listener
      { fetchResult := Except.ok [], launchEnv := { folders := [], workspaceConfigs := [] },
        showTaskBus := false, showLaunchBus := true }
      true false initState).2.2.1 rfl

lemma taskBarConsistent_refreshTasks (f : Except Unit (List Task))
    (s : ExtState) : taskBarConsistent (refreshTasks f s) = true :=
  taskBarConsistent_update _

lemma taskBarConsistent_selectTask (f : Except Unit (List Task))
    (p : Option Nat) (s : ExtState) :
    taskBarConsistent (selectTask f p s) = true := by
  simp only [selectTask]
  split
  · exact taskBarConsistent_refreshTasks f s
  · split
    · exact taskBarConsistent_refreshTasks f s
    · exact taskBarConsistent_update _

lemma taskBarConsistent_executeTaskPhase (f f2 : Except Unit (List Task))
    (p : Option Nat) (s : ExtState) :
    taskBarConsistent (executeTaskPhase f f2 p s) = true := by
  simp only [executeTaskPhase]
  split
  · exact taskBarConsistent_refreshTasks f s
  · exact taskBarConsistent_selectTask f2 p _

lemma taskBarConsistent_executeTask (f f2 : Except Unit (List Task))
    (p : Option Nat) (ok : Bool) (s : ExtState) :
    taskBarConsistent (executeTask f f2 p ok s).1 = true := by
  simp only [executeTask]
  split
  · exact taskBarConsistent_executeTaskPhase f f2 p s
  · split
    · exact taskBarConsistent_executeTaskPhase f f2 p s
    · simpa using taskBarConsistent_update _

lemma launchBarConsistent_refreshLaunch (env : LaunchEnv) (s : ExtState) :
    launchBarConsistent (refreshLaunchConfigurations env s) = true :=
  launchBarConsistent_update _

lemma launchBarConsistent_selectLaunch (env : LaunchEnv) (p : Option Nat)
    (s : ExtState) : launchBarConsistent (selectLaunch env p s) = true := by
  simp only [selectLaunch]
  split
  · exact launchBarConsistent_refreshLaunch env s
  · split
    · exact launchBarConsistent_refreshLaunch env s
    · exact launchBarConsistent_update _

lemma launchBarConsistent_executeLaunchPhase (env env2 : LaunchEnv)
    (p : Option Nat) (s : ExtState) :
    launchBarConsistent (executeLaunchPhase env env2 p s) = true := by
  simp only [executeLaunchPhase]
  split
  · exact launchBarConsistent_refreshLaunch env s
  · exact launchBarConsistent_selectLaunch env2 p _

lemma launchBarConsistent_executeLaunch (env env2 : LaunchEnv)
    (p : Option Nat) (ok : Bool) (s : ExtState) :
    launchBarConsistent (executeLaunch env env2 p ok s).1 = true := by
  simp only [executeLaunch]
  split
  · exact launchBarConsistent_executeLaunchPhase env env2 p s
  · split
    · exact launchBarConsistent_executeLaunchPhase env env2 p s
    · simpa using launchBarConsistent_update _

/-- Claim C7: every operation that changes the selection or the cache ends
in a display update: after `refreshTasks`, `selectTask`, `executeTask` (both
outcomes, hence in particular the error path), and their launch
counterparts, the status-bar items reflect the current selection — the
selector text shows the selected name when a selection exists and the
`Select Task` / `Select Launch` placeholder when none does. -/
theorem C7_status_bar_reflects_selection (f f2 : Except Unit (List Task))
    (lenv lenv2 : LaunchEnv) (p q : Option Nat) (ok ok2 : Bool)
    (s : ExtState) :
    taskBarConsistent (refreshTasks f s) = true
    ∧ taskBarConsistent (selectTask f p s) = true
    ∧ taskBarConsistent (executeTask f f2 p ok s).1 = true
    ∧ launchBarConsistent (refreshLaunchConfigurations lenv s) = true
    ∧ launchBarConsistent (selectLaunch lenv q s) = true
    ∧ launchBarConsistent (executeLaunch lenv lenv2 q ok2 s).1 = true :=
  ⟨taskBarConsistent_refreshTasks f s,
   taskBarConsistent_selectTask f p s,
   taskBarConsistent_executeTask f f2 p ok s,
   launchBarConsistent_refreshLaunch lenv s,
   launchBarConsistent_selectLaunch lenv q s,
   launchBarConsistent_executeLaunch lenv lenv2 q ok2 s⟩

/-- Claim C8: execution is fully delegated to the host.  `executeTask`
issues exactly one `vscode.tasks.executeTask` call when (and only when) a
task is selected after the selection phase, passing the cached task whose
key equals the selected task's key, or the stored selected task if no
cached task matches; `executeLaunch` likewise issues exactly one
`startDebugging` call with the matching launch's folder and configuration.
The call log contains nothing else: the extension spawns nothing itself. -/
theorem C8_execution_delegated_to_host (f f2 : Except Unit (List Task))
    (lenv lenv2 : LaunchEnv) (p q : Option Nat) (ok ok2 : Bool)
    (s : ExtState) :
    ((executeTask f f2 p ok s).2
        = match (executeTaskPhase f f2 p s).selectedTask with
          | none => []
          | some sel =>
            [HostCall.execTask
              (((executeTaskPhase f f2 p s).cachedTasks.find?
                  (fun t => getTaskKey t == getTaskKey sel)).getD sel)])
    ∧ ((executeLaunch lenv lenv2 q ok2 s).2
        = match (executeLaunchPhase lenv lenv2 q s).selectedLaunch with
          | none => []
          | some sel =>
            [HostCall.startDebug
              (((executeLaunchPhase lenv lenv2 q s).cachedLaunches.find?
                  (fun l => getLaunchKey l == getLaunchKey sel)).getD sel).folder
              (((executeLaunchPhase lenv lenv2 q s).cachedLaunches.find?
                  (fun l => getLaunchKey l == getLaunchKey sel)).getD
                sel).configuration]) := by
  constructor
  · simp only [executeTask]
    cases h : (executeTaskPhase f f2 p s).selectedTask with
    | none => simp [h]
    | some sel =>
      simp only [h]
      cases ok <;> rfl
  · simp only [executeLaunch]
    cases h : (executeLaunchPhase lenv lenv2 q s).selectedLaunch with
    | none => simp [h]
    | some sel =>
      simp only [h]
      cases ok2 <;> rfl

/-- Claim C3: error handling is exactly log-and-clear-selection.  If the
host execution call throws (modelled by outcome `false`) after a call was
made, the corresponding in-memory selection and persisted key are cleared
and the selector shows its placeholder again; if the task fetch throws, the
task cache becomes empty, which clears any truthy persisted task selection
during revalidation.  No retry happens: at most one host call is made. -/
theorem C3_log_and_clear_on_error (f f2 : Except Unit (List Task))
    (lenv lenv2 : LaunchEnv) (p q : Option Nat) (s : ExtState) (u : Unit) :
    ((executeTask f f2 p false s).2 ≠ [] →
        (executeTask f f2 p false s).1.selectedTask = none
        ∧ (executeTask f f2 p false s).1.selectedTaskKey = none
        ∧ (executeTask f f2 p false s).1.persistedTaskKey = none
        ∧ (executeTask f f2 p false s).1.taskSelectorText
            = "$(list-selection) Select Task")
    ∧ ((executeLaunch lenv lenv2 q false s).2 ≠ [] →
        (executeLaunch lenv lenv2 q false s).1.selectedLaunch = none
        ∧ (executeLaunch lenv lenv2 q false s).1.selectedLaunchKey = none
        ∧ (executeLaunch lenv lenv2 q false s).1.persistedLaunchKey = none
        ∧ (executeLaunch lenv lenv2 q false s).1.launchSelectorText
            = "$(debug-alt) Select Launch")
    ∧ (refreshTasks (Except.error u) s).cachedTasks = []
    ∧ (strTruthy s.selectedTaskKey = true →
        (refreshTasks (Except.error u) s).selectedTask = none
        ∧ (refreshTasks (Except.error u) s).selectedTaskKey = none
        ∧ (refreshTasks (Except.error u) s).persistedTaskKey = none)
    ∧ (executeTask f f2 p false s).2.length ≤ 1
    ∧ (executeLaunch lenv lenv2 q false s).2.length ≤ 1 := by
  refine ⟨?_, ?_, refreshTasks_cachedTasks (Except.error u) s, ?_, ?_, ?_⟩
  · intro hne
    simp only [executeTask] at hne ⊢
    cases h : (executeTaskPhase f f2 p s).selectedTask with
    | none => simp [h] at hne
    | some sel => simp [h, updateTaskStatusBar]
  · intro hne
    simp only [executeLaunch] at hne ⊢
    cases h : (executeLaunchPhase lenv lenv2 q s).selectedLaunch with
    | none => simp [h] at hne
    | some sel => simp [h, updateLaunchStatusBar]
  · intro htruthy
    obtain ⟨k, hsel, hk⟩ : ∃ k, s.selectedTaskKey = some k ∧ k ≠ "" := by
      cases hsel : s.selectedTaskKey with
      | none => simp [strTruthy, hsel] at htruthy
      | some k =>
        refine ⟨k, rfl, ?_⟩
        simpa [strTruthy, hsel, bne_iff_ne] using htruthy
    have h := refreshTasks_revalidate (Except.error u) s k hk hsel
    have hfind : (refreshTasks (Except.error u) s).cachedTasks.find?
        (fun t => getTaskKey t == k) = none := by
      rw [refreshTasks_cachedTasks]
      rfl
    exact h.2 hfind
  · simp only [executeTask]
    cases h : (executeTaskPhase f f2 p s).selectedTask <;> simp [h]
  · simp only [executeLaunch]
    cases h : (executeLaunchPhase lenv lenv2 q s).selectedLaunch <;> simp [h]

/-- Witness for C3 at concrete inputs: a failing execution clears the task
and launch selections, and a failing fetch clears a truthy task key. -/
theorem C3_log_and_clear_on_error_witness :
    (executeTask
        (Except.ok
          [{ name := "build", source := some "npm",
             scope := TaskScope.workspace, definition := none,
             isBackground := false, detail := none }])
        (Except.ok
          [{ name := "build", source := some "npm",
             scope := TaskScope.workspace, definition := none,
             isBackground := false, detail := none }])
        none false
        { initState with
            selectedTask := some
              { name := "build", source := some "npm",
                scope := TaskScope.workspace, definition := none,
                isBackground := false, detail := none },
            selectedTaskKey := some "workspace::npm::build::\x7b\x7d",
            persistedTaskKey := some "workspace::npm::build::\x7b\x7d",
            selectedLaunch := some
              { configuration := { name := some "run", type := some "node",
                                   request := some "launch", payload := "" },
                folder := none },
            selectedLaunchKey := some "workspace::run::node::launch",
            persistedLaunchKey := some "workspace::run::node::launch" }).1.selectedTaskKey
        = none
    ∧ (executeLaunch
        { folders := [],
          workspaceConfigs :=
            [{ name := some "run", type := some "node",
               request := some "launch", payload := "" }] }
        { folders := [],
          workspaceConfigs :=
            [{ name := some "run", type := some "node",
               request := some "launch", payload := "" }] }
        none false
        { initState with
            selectedLaunch := some
              { configuration := { name := some "run", type := some "node",
                                   request := some "launch", payload := "" },
                folder := none },
            selectedLaunchKey := some "workspace::run::node::launch",
            persistedLaunchKey := some "workspace::run::node::launch" }).1.selectedLaunchKey
        = none
    ∧ (refreshTasks (Except.error ())
        { initState with
            selectedTaskKey := some "workspace::npm::build::\x7b\x7d",
            persistedTaskKey := some "workspace::npm::build::\x7b\x7d" }).selectedTaskKey
        = none := by
  refine ⟨?_, ?_, ?_⟩
  · have h := C3_log_and_clear_on_error
      (Except.ok
        [{ name := "build", source := some "npm",
           scope := TaskScope.workspace, definition := none,
           isBackground := false, detail := none }])
      (Except.ok
        [{ name := "build", source := some "npm",
           scope := TaskScope.workspace, definition := none,
           isBackground := false, detail := none }])
      { folders := [], workspaceConfigs := [] }
      { folders := [], workspaceConfigs := [] }
      none none
      { initState with
          selectedTask := some
            { name := "build", source := some "npm",
              scope := TaskScope.workspace, definition := none,
              isBackground := false, detail := none },
          selectedTaskKey := some "workspace::npm::build::\x7b\x7d",
          persistedTaskKey := some "workspace::npm::build::\x7b\x7d",
          selectedLaunch := some
            { configuration := { name := some "run", type := some "node",
                                 request := some "launch", payload := "" },
              folder := none },
          selectedLaunchKey := some "workspace::run::node::launch",
          persistedLaunchKey := some "workspace::run::node::launch" } ()
    exact (h.1 (by decide)).2.1
  · have h := C3_log_and_clear_on_error (Except.ok []) (Except.ok [])
      { folders := [],
        workspaceConfigs :=
          [{ name := some "run", type := some "node",
             request := some "launch", payload := "" }] }
      { folders := [],
        workspaceConfigs :=
          [{ name := some "run", type := some "node",
             request := some "launch", payload := "" }] }
      none none
      { initState with
          selectedLaunch := some
            { configuration := { name := some "run", type := some "node",
                                 request := some "launch", payload := "" },
              folder := none },
          selectedLaunchKey := some "workspace::run::node::launch",
          persistedLaunchKey := some "workspace::run::node::launch" } ()
    exact (h.2.1 (by decide)).2.1
  · have h := C3_log_and_clear_on_error (Except.ok []) (Except.ok [])
      { folders := [], workspaceConfigs := [] }
      { folders := [], workspaceConfigs := [] }
      none none
      { initState with
          selectedTaskKey := some "workspace::npm::build::\x7b\x7d",
          persistedTaskKey := some "workspace::npm::build::\x7b\x7d" } ()
    exact (h.2.2.2.1 (by decide)).2.1

lemma refreshTasks_key_none (f : Except Unit (List Task)) (s : ExtState)
    (h : s.selectedTaskKey = none) :
    (refreshTasks f s).selectedTask = s.selectedTask
    ∧ (refreshTasks f s).selectedTaskKey = none
    ∧ (refreshTasks f s).persistedTaskKey = s.persistedTaskKey := by
  simp [refreshTasks, h]

lemma refreshLaunch_key_none (env : LaunchEnv) (s : ExtState)
    (h : s.selectedLaunchKey = none) :
    (refreshLaunchConfigurations env s).selectedLaunch = s.selectedLaunch
    ∧ (refreshLaunchConfigurations env s).selectedLaunchKey = none
    ∧ (refreshLaunchConfigurations env s).persistedLaunchKey
        = s.persistedLaunchKey := by
  simp [refreshLaunchConfigurations, h]

lemma selectTask_no_pick (f2 : Except Unit (List Task)) (p : Option Nat)
    (s1 : ExtState) (h1 : s1.selectedTask = none)
    (h2 : s1.selectedTaskKey = none) (h3 : s1.persistedTaskKey = none)
    (hp : p = none ∨ (refreshTasks f2 s1).cachedTasks = []) :
    (selectTask f2 p s1).selectedTask = none
    ∧ (selectTask f2 p s1).selectedTaskKey = none
    ∧ (selectTask f2 p s1).persistedTaskKey = none := by
  have hr := refreshTasks_key_none f2 s1 h2
  simp only [selectTask]
  split
  · exact ⟨by rw [hr.1, h1], hr.2.1, by rw [hr.2.2, h3]⟩
  · rcases hp with hp | hp
    · subst hp
      simp only [Option.bind]
      exact ⟨by rw [hr.1, h1], hr.2.1, by rw [hr.2.2, h3]⟩
    · rename_i hne
      rw [hp] at hne
      simp at hne

lemma selectLaunch_no_pick (env2 : LaunchEnv) (q : Option Nat)
    (s1 : ExtState) (h1 : s1.selectedLaunch = none)
    (h2 : s1.selectedLaunchKey = none) (h3 : s1.persistedLaunchKey = none)
    (hq : q = none
      ∨ (refreshLaunchConfigurations env2 s1).cachedLaunches = []) :
    (selectLaunch env2 q s1).selectedLaunch = none
    ∧ (selectLaunch env2 q s1).selectedLaunchKey = none
    ∧ (selectLaunch env2 q s1).persistedLaunchKey = none := by
  have hr := refreshLaunch_key_none env2 s1 h2
  simp only [selectLaunch]
  split
  · exact ⟨by rw [hr.1, h1], hr.2.1, by rw [hr.2.2, h3]⟩
  · rcases hq with hq | hq
    · subst hq
      simp only [Option.bind]
      exact ⟨by rw [hr.1, h1], hr.2.1, by rw [hr.2.2, h3]⟩
    · rename_i hne
      rw [hq] at hne
      simp at hne

/-- Claim C10: running with no selection first goes through the picker, and
if the user dismisses the picker or the (re-fetched) cache is empty, the
command returns without calling the host execution API and without changing
the selection state or the persisted keys. -/
theorem C10_run_with_no_selection (f f2 : Except Unit (List Task))
    (lenv lenv2 : LaunchEnv) (p q : Option Nat) (ok ok2 : Bool)
    (s : ExtState)
    (ht1 : s.selectedTask = none) (ht2 : s.selectedTaskKey = none)
    (ht3 : s.persistedTaskKey = none)
    (hl1 : s.selectedLaunch = none) (hl2 : s.selectedLaunchKey = none)
    (hl3 : s.persistedLaunchKey = none)
    (hp : p = none
      ∨ (refreshTasks f2 (refreshTasks f s)).cachedTasks = [])
    (hq : q = none
      ∨ (refreshLaunchConfigurations lenv2
          (refreshLaunchConfigurations lenv s)).cachedLaunches = []) :
    (executeTask f f2 p ok s).2 = []
    ∧ (executeTask f f2 p ok s).1.selectedTask = none
    ∧ (executeTask f f2 p ok s).1.selectedTaskKey = none
    ∧ (executeTask f f2 p ok s).1.persistedTaskKey = none
    ∧ (executeLaunch lenv lenv2 q ok2 s).2 = []
    ∧ (executeLaunch lenv lenv2 q ok2 s).1.selectedLaunch = none
    ∧ (executeLaunch lenv lenv2 q ok2 s).1.selectedLaunchKey = none
    ∧ (executeLaunch lenv lenv2 q ok2 s).1.persistedLaunchKey = none := by
  have hr := refreshTasks_key_none f s ht2
  have hphase : (executeTaskPhase f f2 p s).selectedTask = none
      ∧ (executeTaskPhase f f2 p s).selectedTaskKey = none
      ∧ (executeTaskPhase f f2 p s).persistedTaskKey = none := by
    simp only [executeTaskPhase]
    split
    · rename_i hsome
      rw [hr.1, ht1] at hsome
      simp at hsome
    · exact selectTask_no_pick f2 p (refreshTasks f s)
        (by rw [hr.1, ht1]) hr.2.1 (by rw [hr.2.2, ht3]) hp
  have hlr := refreshLaunch_key_none lenv s hl2
  have hlphase : (executeLaunchPhase lenv lenv2 q s).selectedLaunch = none
      ∧ (executeLaunchPhase lenv lenv2 q s).selectedLaunchKey = none
      ∧ (executeLaunchPhase lenv lenv2 q s).persistedLaunchKey = none := by
    simp only [executeLaunchPhase]
    split
    · rename_i hsome
      rw [hlr.1, hl1] at hsome
      simp at hsome
    · exact selectLaunch_no_pick lenv2 q (refreshLaunchConfigurations lenv s)
        (by rw [hlr.1, hl1]) hlr.2.1 (by rw [hlr.2.2, hl3]) hq
  have hT : executeTask f f2 p ok s = (executeTaskPhase f f2 p s, []) := by
    simp only [executeTask]
    rw [hphase.1]
  have hL : executeLaunch lenv lenv2 q ok2 s
      = (executeLaunchPhase lenv lenv2 q s, []) := by
    simp only [executeLaunch]
    rw [hlphase.1]
  rw [hT, hL]
  exact ⟨rfl, hphase.1, hphase.2.1, hphase.2.2, rfl,
    hlphase.1, hlphase.2.1, hlphase.2.2⟩

/-- Witness for C10: from the fresh state with nothing selected, a
dismissed picker leaves everything unselected and makes no host call. -/
theorem C10_run_with_no_selection_witness :
    (executeTask
        (Except.ok
          [{ name := "build", source := some "npm",
             scope := TaskScope.workspace, definition := none,
             isBackground := false, detail := none }])
        (Except.ok
          [{ name := "build", source := some "npm",
             scope := TaskScope.workspace, definition := none,
             isBackground := false, detail := none }])
        none true initState).2 = []
    ∧ (executeLaunch
        { folders := [], workspaceConfigs := [] }
        { folders := [], workspaceConfigs := [] }
        none true initState).2 = [] := by
  have h := C10_run_with_no_selection
    (Except.ok
      [{ name := "build", source := some "npm",
         scope := TaskScope.workspace, definition := none,
         isBackground := false, detail := none }])
    (Except.ok
      [{ name := "build", source := some "npm",
         scope := TaskScope.workspace, definition := none,
         isBackground := false, detail := none }])
    { folders := [], workspaceConfigs := [] }
    { folders := [], workspaceConfigs := [] }
    none none true true initState rfl rfl rfl rfl rfl rfl
    (Or.inl rfl) (Or.inr (by decide))
  exact ⟨h.1, h.2.2.2.2.1⟩

lemma refreshTasks_revalidate_strong (f : Except Unit (List Task))
    (s : ExtState) (k : String) (hk : k ≠ "")
    (hsel : s.selectedTaskKey = some k) (t' : Task)
    (hfind : (refreshTasks f s).cachedTasks.find?
        (fun t => getTaskKey t == k) = some t') :
    (refreshTasks f s).selectedTask = some t'
    ∧ (refreshTasks f s).selectedTaskKey = some k
    ∧ (refreshTasks f s).persistedTaskKey = s.persistedTaskKey := by
  have hbne : (k != "") = true := by simp [bne_iff_ne, hk]
  rw [refreshTasks_cachedTasks] at hfind
  simp only [refreshTasks, updateTaskStatusBar_selectedTask,
    updateTaskStatusBar_selectedTaskKey, updateTaskStatusBar_persistedTaskKey]
  simp only [hsel, hbne, if_true]
  rw [hfind]
  exact ⟨rfl, rfl, rfl⟩

lemma refreshLaunch_revalidate_strong (env : LaunchEnv) (s : ExtState)
    (k : String) (hk : k ≠ "") (hsel : s.selectedLaunchKey = some k)
    (l' : LaunchSelection)
    (hfind : (refreshLaunchConfigurations env s).cachedLaunches.find?
        (fun l => getLaunchKey l == k) = some l') :
    (refreshLaunchConfigurations env s).selectedLaunch = some l'
    ∧ (refreshLaunchConfigurations env s).selectedLaunchKey = some k
    ∧ (refreshLaunchConfigurations env s).persistedLaunchKey
        = s.persistedLaunchKey := by
  have hbne : (k != "") = true := by simp [bne_iff_ne, hk]
  rw [refreshLaunchConfigurations_cachedLaunches] at hfind
  simp only [refreshLaunchConfigurations, updateLaunchStatusBar_selectedLaunch,
    updateLaunchStatusBar_selectedLaunchKey,
    updateLaunchStatusBar_persistedLaunchKey]
  simp only [hsel, hbne, if_true]
  rw [hfind]
  exact ⟨rfl, rfl, rfl⟩

lemma taskStateConsistent_iff (s : ExtState) :
    taskStateConsistent s = true ↔
      (s.selectedTask = none ∧ s.selectedTaskKey = none
        ∧ s.persistedTaskKey = none)
      ∨ (∃ t, s.selectedTask = some t
          ∧ s.selectedTaskKey = some (getTaskKey t)
          ∧ s.persistedTaskKey = some (getTaskKey t)) := by
  cases ht : s.selectedTask <;> cases hkk : s.selectedTaskKey <;>
    simp [taskStateConsistent, ht, hkk]
  intro h
  rw [h]

lemma launchStateConsistent_iff (s : ExtState) :
    launchStateConsistent s = true ↔
      (s.selectedLaunch = none ∧ s.selectedLaunchKey = none
        ∧ s.persistedLaunchKey = none)
      ∨ (∃ l, s.selectedLaunch = some l
          ∧ s.selectedLaunchKey = some (getLaunchKey l)
          ∧ s.persistedLaunchKey = some (getLaunchKey l)) := by
  cases hl : s.selectedLaunch <;> cases hkk : s.selectedLaunchKey <;>
    simp [launchStateConsistent, hl, hkk]
  intro h
  rw [h]

lemma taskStateConsistent_congr (s' s : ExtState)
    (h1 : s'.selectedTask = s.selectedTask)
    (h2 : s'.selectedTaskKey = s.selectedTaskKey)
    (h3 : s'.persistedTaskKey = s.persistedTaskKey) :
    taskStateConsistent s' = taskStateConsistent s := by
  unfold taskStateConsistent
  rw [h1, h2, h3]

lemma launchStateConsistent_congr (s' s : ExtState)
    (h1 : s'.selectedLaunch = s.selectedLaunch)
    (h2 : s'.selectedLaunchKey = s.selectedLaunchKey)
    (h3 : s'.persistedLaunchKey = s.persistedLaunchKey) :
    launchStateConsistent s' = launchStateConsistent s := by
  unfold launchStateConsistent
  rw [h1, h2, h3]

lemma launch_fields_refreshTasks (f : Except Unit (List Task)) (s : ExtState) :
    (refreshTasks f s).selectedLaunch = s.selectedLaunch
    ∧ (refreshTasks f s).selectedLaunchKey = s.selectedLaunchKey
    ∧ (refreshTasks f s).persistedLaunchKey = s.persistedLaunchKey := by
  refine ⟨?_, ?_, ?_⟩ <;>
  · simp only [refreshTasks, updateTaskStatusBar_selectedLaunch,
      updateTaskStatusBar_selectedLaunchKey,
      updateTaskStatusBar_persistedLaunchKey]
    split <;> (try split) <;> (try split) <;> rfl

lemma task_fields_refreshLaunch (env : LaunchEnv) (s : ExtState) :
    (refreshLaunchConfigurations env s).selectedTask = s.selectedTask
    ∧ (refreshLaunchConfigurations env s).selectedTaskKey = s.selectedTaskKey
    ∧ (refreshLaunchConfigurations env s).persistedTaskKey
        = s.persistedTaskKey := by
  refine ⟨?_, ?_, ?_⟩ <;>
  · simp only [refreshLaunchConfigurations, updateLaunchStatusBar_selectedTask,
      updateLaunchStatusBar_selectedTaskKey,
      updateLaunchStatusBar_persistedTaskKey]
    split <;> (try split) <;> (try split) <;> rfl

lemma launch_fields_selectTask (f : Except Unit (List Task)) (p : Option Nat)
    (s : ExtState) :
    (selectTask f p s).selectedLaunch = s.selectedLaunch
    ∧ (selectTask f p s).selectedLaunchKey = s.selectedLaunchKey
    ∧ (selectTask f p s).persistedLaunchKey = s.persistedLaunchKey := by
  have hf := launch_fields_refreshTasks f s
  simp only [selectTask]
  split
  · exact hf
  · split
    · exact hf
    · refine ⟨?_, ?_, ?_⟩ <;>
        simp [hf.1, hf.2.1, hf.2.2]

lemma task_fields_selectLaunch (env : LaunchEnv) (q : Option Nat)
    (s : ExtState) :
    (selectLaunch env q s).selectedTask = s.selectedTask
    ∧ (selectLaunch env q s).selectedTaskKey = s.selectedTaskKey
    ∧ (selectLaunch env q s).persistedTaskKey = s.persistedTaskKey := by
  have hf := task_fields_refreshLaunch env s
  simp only [selectLaunch]
  split
  · exact hf
  · split
    · exact hf
    · refine ⟨?_, ?_, ?_⟩ <;>
        simp [hf.1, hf.2.1, hf.2.2]

lemma launch_fields_executeTaskPhase (f f2 : Except Unit (List Task))
    (p : Option Nat) (s : ExtState) :
    (executeTaskPhase f f2 p s).selectedLaunch = s.selectedLaunch
    ∧ (executeTaskPhase f f2 p s).selectedLaunchKey = s.selectedLaunchKey
    ∧ (executeTaskPhase f f2 p s).persistedLaunchKey
        = s.persistedLaunchKey := by
  simp only [executeTaskPhase]
  split
  · exact launch_fields_refreshTasks f s
  · have h1 := launch_fields_selectTask f2 p (refreshTasks f s)
    have h2 := launch_fields_refreshTasks f s
    exact ⟨h1.1.trans h2.1, h1.2.1.trans h2.2.1, h1.2.2.trans h2.2.2⟩

lemma task_fields_executeLaunchPhase (env env2 : LaunchEnv) (q : Option Nat)
    (s : ExtState) :
    (executeLaunchPhase env env2 q s).selectedTask = s.selectedTask
    ∧ (executeLaunchPhase env env2 q s).selectedTaskKey = s.selectedTaskKey
    ∧ (executeLaunchPhase env env2 q s).persistedTaskKey
        = s.persistedTaskKey := by
  simp only [executeLaunchPhase]
  split
  · exact task_fields_refreshLaunch env s
  · have h1 := task_fields_selectLaunch env2 q (refreshLaunchConfigurations env s)
    have h2 := task_fields_refreshLaunch env s
    exact ⟨h1.1.trans h2.1, h1.2.1.trans h2.2.1, h1.2.2.trans h2.2.2⟩

lemma launch_fields_executeTask (f f2 : Except Unit (List Task))
    (p : Option Nat) (ok : Bool) (s : ExtState) :
    (executeTask f f2 p ok s).1.selectedLaunch = s.selectedLaunch
    ∧ (executeTask f f2 p ok s).1.selectedLaunchKey = s.selectedLaunchKey
    ∧ (executeTask f f2 p ok s).1.persistedLaunchKey
        = s.persistedLaunchKey := by
  have hf := launch_fields_executeTaskPhase f f2 p s
  simp only [executeTask]
  split
  · exact hf
  · split
    · exact hf
    · refine ⟨?_, ?_, ?_⟩ <;>
        simp [hf.1, hf.2.1, hf.2.2]

lemma task_fields_executeLaunch (env env2 : LaunchEnv) (q : Option Nat)
    (ok : Bool) (s : ExtState) :
    (executeLaunch env env2 q ok s).1.selectedTask = s.selectedTask
    ∧ (executeLaunch env env2 q ok s).1.selectedTaskKey = s.selectedTaskKey
    ∧ (executeLaunch env env2 q ok s).1.persistedTaskKey
        = s.persistedTaskKey := by
  have hf := task_fields_executeLaunchPhase env env2 q s
  simp only [executeLaunch]
  split
  · exact hf
  · split
    · exact hf
    · refine ⟨?_, ?_, ?_⟩ <;>
        simp [hf.1, hf.2.1, hf.2.2]

lemma taskStateConsistent_refreshTasks_start (f : Except Unit (List Task))
    (s : ExtState) (kOpt : Option String)
    (h0 : kOpt = none → s.selectedTask = none)
    (h1 : s.selectedTaskKey = kOpt) (h2 : s.persistedTaskKey = kOpt)
    (hne : kOpt ≠ some "") :
    taskStateConsistent (refreshTasks f s) = true := by
  cases kOpt with
  | none =>
    have hr := refreshTasks_key_none f s h1
    exact (taskStateConsistent_iff _).2
      (Or.inl ⟨by rw [hr.1, h0 rfl], hr.2.1, by rw [hr.2.2, h2]⟩)
  | some k =>
    have hk : k ≠ "" := by
      intro he
      exact hne (by rw [he])
    have hrev := refreshTasks_revalidate f s k hk h1
    cases hfind : (refreshTasks f s).cachedTasks.find?
        (fun t => getTaskKey t == k) with
    | none => exact (taskStateConsistent_iff _).2 (Or.inl (hrev.2 hfind))
    | some t' =>
      have hs := refreshTasks_revalidate_strong f s k hk h1 t' hfind
      have hkey : getTaskKey t' = k := by
        have := List.find?_some hfind
        simpa [beq_iff_eq] using this
      refine (taskStateConsistent_iff _).2 (Or.inr ⟨t', hs.1, ?_, ?_⟩)
      · rw [hs.2.1, hkey]
      · rw [hs.2.2, h2, hkey]

lemma launchStateConsistent_refreshLaunch_start (env : LaunchEnv)
    (s : ExtState) (kOpt : Option String)
    (h0 : kOpt = none → s.selectedLaunch = none)
    (h1 : s.selectedLaunchKey = kOpt) (h2 : s.persistedLaunchKey = kOpt)
    (hne : kOpt ≠ some "") :
    launchStateConsistent (refreshLaunchConfigurations env s) = true := by
  cases kOpt with
  | none =>
    have hr := refreshLaunch_key_none env s h1
    exact (launchStateConsistent_iff _).2
      (Or.inl ⟨by rw [hr.1, h0 rfl], hr.2.1, by rw [hr.2.2, h2]⟩)
  | some k =>
    have hk : k ≠ "" := by
      intro he
      exact hne (by rw [he])
    have hrev := refreshLaunch_revalidate env s k hk h1
    cases hfind : (refreshLaunchConfigurations env s).cachedLaunches.find?
        (fun l => getLaunchKey l == k) with
    | none => exact (launchStateConsistent_iff _).2 (Or.inl (hrev.2 hfind))
    | some l' =>
      have hs := refreshLaunch_revalidate_strong env s k hk h1 l' hfind
      have hkey : getLaunchKey l' = k := by
        have := List.find?_some hfind
        simpa [beq_iff_eq] using this
      refine (launchStateConsistent_iff _).2 (Or.inr ⟨l', hs.1, ?_, ?_⟩)
      · rw [hs.2.1, hkey]
      · rw [hs.2.2, h2, hkey]

lemma taskStateConsistent_refreshTasks (f : Except Unit (List Task))
    (s : ExtState) (h : taskStateConsistent s = true) :
    taskStateConsistent (refreshTasks f s) = true := by
  rcases (taskStateConsistent_iff s).1 h with ⟨h1, h2, h3⟩ | ⟨t, h1, h2, h3⟩
  · exact taskStateConsistent_refreshTasks_start f s none (fun _ => h1) h2 h3
      (by simp)
  · exact taskStateConsistent_refreshTasks_start f s (some (getTaskKey t))
      (fun hc => absurd hc (by simp)) h2 h3
      (by simp [getTaskKey_ne_empty t])

lemma launchStateConsistent_refreshLaunch (env : LaunchEnv) (s : ExtState)
    (h : launchStateConsistent s = true) :
    launchStateConsistent (refreshLaunchConfigurations env s) = true := by
  rcases (launchStateConsistent_iff s).1 h with ⟨h1, h2, h3⟩ | ⟨l, h1, h2, h3⟩
  · exact launchStateConsistent_refreshLaunch_start env s none (fun _ => h1)
      h2 h3 (by simp)
  · exact launchStateConsistent_refreshLaunch_start env s
      (some (getLaunchKey l)) (fun hc => absurd hc (by simp)) h2 h3
      (by simp [getLaunchKey_ne_empty l])

lemma taskStateConsistent_selectTask (f : Except Unit (List Task))
    (p : Option Nat) (s : ExtState) (h : taskStateConsistent s = true) :
    taskStateConsistent (selectTask f p s) = true := by
  have hr := taskStateConsistent_refreshTasks f s h
  simp only [selectTask]
  split
  · exact hr
  · split
    · exact hr
    · rename_i t heq
      refine (taskStateConsistent_iff _).2 (Or.inr ⟨t, ?_, ?_, ?_⟩) <;> simp

lemma launchStateConsistent_selectLaunch (env : LaunchEnv) (q : Option Nat)
    (s : ExtState) (h : launchStateConsistent s = true) :
    launchStateConsistent (selectLaunch env q s) = true := by
  have hr := launchStateConsistent_refreshLaunch env s h
  simp only [selectLaunch]
  split
  · exact hr
  · split
    · exact hr
    · rename_i l heq
      refine (launchStateConsistent_iff _).2 (Or.inr ⟨l, ?_, ?_, ?_⟩) <;> simp

lemma taskStateConsistent_executeTaskPhase (f f2 : Except Unit (List Task))
    (p : Option Nat) (s : ExtState) (h : taskStateConsistent s = true) :
    taskStateConsistent (executeTaskPhase f f2 p s) = true := by
  simp only [executeTaskPhase]
  split
  · exact taskStateConsistent_refreshTasks f s h
  · exact taskStateConsistent_selectTask f2 p _
      (taskStateConsistent_refreshTasks f s h)

lemma launchStateConsistent_executeLaunchPhase (env env2 : LaunchEnv)
    (q : Option Nat) (s : ExtState) (h : launchStateConsistent s = true) :
    launchStateConsistent (executeLaunchPhase env env2 q s) = true := by
  simp only [executeLaunchPhase]
  split
  · exact launchStateConsistent_refreshLaunch env s h
  · exact launchStateConsistent_selectLaunch env2 q _
      (launchStateConsistent_refreshLaunch env s h)

lemma taskStateConsistent_executeTask (f f2 : Except Unit (List Task))
    (p : Option Nat) (ok : Bool) (s : ExtState)
    (h : taskStateConsistent s = true) :
    taskStateConsistent (executeTask f f2 p ok s).1 = true := by
  have hp := taskStateConsistent_executeTaskPhase f f2 p s h
  simp only [executeTask]
  split
  · exact hp
  · split
    · exact hp
    · refine (taskStateConsistent_iff _).2 (Or.inl ⟨?_, ?_, ?_⟩) <;> simp

lemma launchStateConsistent_executeLaunch (env env2 : LaunchEnv)
    (q : Option Nat) (ok : Bool) (s : ExtState)
    (h : launchStateConsistent s = true) :
    launchStateConsistent (executeLaunch env env2 q ok s).1 = true := by
  have hp := launchStateConsistent_executeLaunchPhase env env2 q s h
  simp only [executeLaunch]
  split
  · exact hp
  · split
    · exact hp
    · refine (launchStateConsistent_iff _).2 (Or.inl ⟨?_, ?_, ?_⟩) <;> simp

lemma launchStateConsistent_selectTask (f : Except Unit (List Task))
    (p : Option Nat) (s : ExtState) (h : launchStateConsistent s = true) :
    launchStateConsistent (selectTask f p s) = true := by
  have hf := launch_fields_selectTask f p s
  rw [launchStateConsistent_congr _ s hf.1 hf.2.1 hf.2.2]
  exact h

lemma taskStateConsistent_selectLaunch (env : LaunchEnv) (q : Option Nat)
    (s : ExtState) (h : taskStateConsistent s = true) :
    taskStateConsistent (selectLaunch env q s) = true := by
  have hf := task_fields_selectLaunch env q s
  rw [taskStateConsistent_congr _ s hf.1 hf.2.1 hf.2.2]
  exact h

lemma launchStateConsistent_refreshTasks (f : Except Unit (List Task))
    (s : ExtState) (h : launchStateConsistent s = true) :
    launchStateConsistent (refreshTasks f s) = true := by
  have hf := launch_fields_refreshTasks f s
  rw [launchStateConsistent_congr _ s hf.1 hf.2.1 hf.2.2]
  exact h

lemma taskStateConsistent_refreshLaunch (env : LaunchEnv) (s : ExtState)
    (h : taskStateConsistent s = true) :
    taskStateConsistent (refreshLaunchConfigurations env s) = true := by
  have hf := task_fields_refreshLaunch env s
  rw [taskStateConsistent_congr _ s hf.1 hf.2.1 hf.2.2]
  exact h

lemma launchStateConsistent_executeTask (f f2 : Except Unit (List Task))
    (p : Option Nat) (ok : Bool) (s : ExtState)
    (h : launchStateConsistent s = true) :
    launchStateConsistent (executeTask f f2 p ok s).1 = true := by
  have hf := launch_fields_executeTask f f2 p ok s
  rw [launchStateConsistent_congr _ s hf.1 hf.2.1 hf.2.2]
  exact h

lemma taskStateConsistent_executeLaunch (env env2 : LaunchEnv)
    (q : Option Nat) (ok : Bool) (s : ExtState)
    (h : taskStateConsistent s = true) :
    taskStateConsistent (executeLaunch env env2 q ok s).1 = true := by
  have hf := task_fields_executeLaunch env env2 q ok s
  rw [taskStateConsistent_congr _ s hf.1 hf.2.1 hf.2.2]
  exact h

lemma taskStateConsistent_activate (pT pL : Option String) (env : HostEnv)
    (hpT : pT ≠ some "") :
    taskStateConsistent (activate pT pL env) = true := by
  have e1 : activate pT pL env
      = applyVisibilitySettings env.showTaskBus env.showLaunchBus
          (refreshLaunchConfigurations env.launchEnv
            (refreshTasks env.fetchResult
              { initState with
                  persistedTaskKey := pT, persistedLaunchKey := pL,
                  selectedTaskKey := pT, selectedLaunchKey := pL })) := rfl
  rw [e1]
  rw [taskStateConsistent_congr _ _ rfl rfl rfl]
  exact taskStateConsistent_refreshLaunch env.launchEnv _
    (taskStateConsistent_refreshTasks_start env.fetchResult _ pT
      (fun _ => rfl) rfl rfl hpT)

lemma launchStateConsistent_activate (pT pL : Option String) (env : HostEnv)
    (hpL : pL ≠ some "") :
    launchStateConsistent (activate pT pL env) = true := by
  have e1 : activate pT pL env
      = applyVisibilitySettings env.showTaskBus env.showLaunchBus
          (refreshLaunchConfigurations env.launchEnv
            (refreshTasks env.fetchResult
              { initState with
                  persistedTaskKey := pT, persistedLaunchKey := pL,
                  selectedTaskKey := pT, selectedLaunchKey := pL })) := rfl
  rw [e1]
  rw [launchStateConsistent_congr _ _ rfl rfl rfl]
  have hf := launch_fields_refreshTasks env.fetchResult
    { initState with
        persistedTaskKey := pT, persistedLaunchKey := pL,
        selectedTaskKey := pT, selectedLaunchKey := pL }
  exact launchStateConsistent_refreshLaunch_start env.launchEnv _ pL
    (fun _ => by rw [hf.1]; rfl) (by rw [hf.2.1]) (by rw [hf.2.2])
    hpL

/-- Claim C9: selection-key consistency.  `activate` (run against persisted
keys the program itself could have written, i.e. not the falsy empty
string) establishes, and every operation preserves, the invariant that the
in-memory selected item and its key are defined together, the key is the
derived key of the selected item, and the workspace-state copy equals the
in-memory key — for both the task and the launch side. -/
theorem C9_selection_key_consistency (pT pL : Option String) (env : HostEnv)
    (f f2 : Except Unit (List Task)) (lenv lenv2 : LaunchEnv)
    (p q : Option Nat) (ok ok2 : Bool) (s : ExtState)
    (hpT : pT ≠ some "") (hpL : pL ≠ some "")
    (hs : taskStateConsistent s = true ∧ launchStateConsistent s = true) :
    (taskStateConsistent (activate pT pL env) = true
      ∧ launchStateConsistent (activate pT pL env) = true)
    ∧ (taskStateConsistent (refreshTasks f s) = true
      ∧ launchStateConsistent (refreshTasks f s) = true)
    ∧ (taskStateConsistent (selectTask f p s) = true
      ∧ launchStateConsistent (selectTask f p s) = true)
    ∧ (taskStateConsistent (executeTask f f2 p ok s).1 = true
      ∧ launchStateConsistent (executeTask f f2 p ok s).1 = true)
    ∧ (taskStateConsistent (refreshLaunchConfigurations lenv s) = true
      ∧ launchStateConsistent (refreshLaunchConfigurations lenv s) = true)
    ∧ (taskStateConsistent (selectLaunch lenv q s) = true
      ∧ launchStateConsistent (selectLaunch lenv q s) = true)
    ∧ (taskStateConsistent (executeLaunch lenv lenv2 q ok2 s).1 = true
      ∧ launchStateConsistent (executeLaunch lenv lenv2 q ok2 s).1 = true) :=
  ⟨⟨taskStateConsistent_activate pT pL env hpT,
    launchStateConsistent_activate pT pL env hpL⟩,
   ⟨taskStateConsistent_refreshTasks f s hs.1,
    launchStateConsistent_refreshTasks f s hs.2⟩,
   ⟨taskStateConsistent_selectTask f p s hs.1,
    launchStateConsistent_selectTask f p s hs.2⟩,
   ⟨taskStateConsistent_executeTask f f2 p ok s hs.1,
    launchStateConsistent_executeTask f f2 p ok s hs.2⟩,
   ⟨taskStateConsistent_refreshLaunch lenv s hs.1,
    launchStateConsistent_refreshLaunch lenv s hs.2⟩,
   ⟨taskStateConsistent_selectLaunch lenv q s hs.1,
    launchStateConsistent_selectLaunch lenv q s hs.2⟩,
   ⟨taskStateConsistent_executeLaunch lenv lenv2 q ok2 s hs.1,
    launchStateConsistent_executeLaunch lenv lenv2 q ok2 s hs.2⟩⟩

/-- Witness for C9 at concrete inputs: activating with a stale persisted
task key and no launch key yields consistent selection state, and selecting
the only available task keeps it consistent. -/
theorem C9_selection_key_consistency_witness :
    taskStateConsistent
        (activate (some "stale") none
          { fetchResult := Except.ok
              [{ name := "build", source := some "npm",
                 scope := TaskScope.workspace, definition := none,
                 isBackground := false, detail := none }],
            launchEnv := { folders := [], workspaceConfigs := [] },
            showTaskBus := true, showLaunchBus := true }) = true
    ∧ taskStateConsistent
        (selectTask
          (Except.ok
            [{ name := "build", source := some "npm",
               scope := TaskScope.workspace, definition := none,
               isBackground := false, detail := none }])
          (some 0) initState) = true := by
  have h := C9_selection_key_consistency (some "stale") none
    { fetchResult := Except.ok
        [{ name := "build", source := some "npm",
           scope := TaskScope.workspace, definition := none,
           isBackground := false, detail := none }],
      launchEnv := { folders := [], workspaceConfigs := [] },
      showTaskBus := true, showLaunchBus := true }
    (Except.ok
      [{ name := "build", source := some "npm",
         scope := TaskScope.workspace, definition := none,
         isBackground := false, detail := none }])
    (Except.ok []) { folders := [], workspaceConfigs := [] }
    { folders := [], workspaceConfigs := [] }
    (some 0) none true true initState
    (by decide) (by decide) ⟨by decide, by decide⟩
  exact ⟨h.1.1, h.2.2.1.1⟩

end TaskBus
